import Mathlib

/-!
Verification of the AutomatePayouts repository's OTP retrieval core and its
collaborators, shallowly embedded from the JavaScript source.

Embedded pieces:
* `fetchLatestOtp` (utils/fetchOtp.js): a MongoDB `findOne` on the `otps`
  collection with filter `createdAt > afterTimestamp` (dropped when
  `afterTimestamp` is falsy), sort `createdAt` descending, limit 1,
  returning `otp?.otp || null`, with the whole body wrapped in a
  try/catch that returns `null` on any store error.
* The OTP polling loops of the Playwright specs (kotak-new.spec.js,
  Kotak_statementDownload.spec.js): `while (!otp && Date.now() - start <
  60000) { otp = await fetchLatestOtp(start); if (!otp) await sleep(3000) }`
  followed by `if (!otp) throw`.
* `sendTelegramAlert` (utils/sendTelegram.js).
* `parseAxisBankReport`'s row loop with stop markers (axis report spec).
* The failure-alert control flow of kotak-new.spec.js (catch block plus
  `test.afterEach` hook).

Time is in integer milliseconds. A store query outcome is `Except String
(List OtpRecord)`: `.error` models a thrown connectivity error, `.ok`
the materialized `otps` collection at that instant.
-/

/-- An `otps` collection document as read by `fetchLatestOtp`.  The `otp`
field may be absent (`none`) since nothing in the repository enforces the
document shape; `createdAt` is a millisecond timestamp. -/
structure OtpRecord where
  otp : Option String
  createdAt : Int
deriving DecidableEq, Repr

/-- JavaScript truthiness of a possibly-absent string value: `undefined`,
`null` and `""` are falsy, every other string is truthy. -/
def jsTruthyStr : Option String → Bool
  | none => false
  | some s => !(s == "")

/-- The Mongo query built by `fetchLatestOtp`:
`afterTimestamp ? { createdAt: { $gt: new Date(Number(afterTimestamp)) } } : {}`.
`none` models a missing/`null` argument; a numeric argument is falsy in
JavaScript exactly when it is `0`, in which case the filter is dropped. -/
def otpQuery (afterTimestamp : Option Int) (r : OtpRecord) : Bool :=
  match afterTimestamp with
  | none => true
  | some t => if t == 0 then true else decide (t < r.createdAt)

/-- `findOne` with `sort: { createdAt: -1 }`: the record with maximal
`createdAt` among those in the list (leftmost on ties), or `none` when no
record matches. -/
def pickMax : List OtpRecord → Option OtpRecord
  | [] => none
  | r :: rs =>
    match pickMax rs with
    | none => some r
    | some b => if b.createdAt ≤ r.createdAt then some r else some b

/-- `return otp?.otp || null`: the found document's `otp` field when it is
truthy, otherwise `null`. -/
def otpField : Option OtpRecord → Option String
  | none => none
  | some r => if jsTruthyStr r.otp then r.otp else none

/-- `fetchLatestOtp(afterTimestamp)` from utils/fetchOtp.js, over one store
query outcome.  A store error is caught (`catch`: log and `return null`);
otherwise the single most-recently-created matching record's `otp` field is
returned when truthy, else `null`. -/
def fetchLatestOtp (store : Except String (List OtpRecord))
    (afterTimestamp : Option Int) : Option String :=
  match store with
  | .error _ => none
  | .ok records => otpField (pickMax (records.filter (otpQuery afterTimestamp)))

/-- Outcome of one OTP polling loop: the code found (with the elapsed time,
in ms since `startTime`, of the poll that found it), or the `throw new
Error('OTP timeout')` after the loop with the elapsed time at which the
loop condition failed. -/
inductive PollResult where
  | success (code : String) (elapsed : Int)
  | timedOut (elapsed : Int)
deriving DecidableEq, Repr

/-- The polling loop body, structurally recursive on a fuel bound (the loop
itself is bounded: each null poll sleeps `pollInterval` and the guard
requires `elapsed < timeoutBudget`).  `query elapsed` is the value of
`await fetchLatestOtp(startTime)` at that elapsed time.  Fuel exhaustion
returns `none`; `loopFuel_total` shows the canonical fuel never exhausts. -/
def loopFuel (query : Int → Option String) (timeoutBudget pollInterval : Int) :
    Nat → Int → Option PollResult
  | 0, _ => none
  | fuel + 1, elapsed =>
    if elapsed < timeoutBudget then
      match query elapsed with
      | some code => some (.success code elapsed)
      | none => loopFuel query timeoutBudget pollInterval fuel (elapsed + pollInterval)
    else
      some (.timedOut elapsed)

/-- Fuel sufficient for the whole budget: one poll per `pollInterval` plus
the final guard check. -/
def pollFuel (timeoutBudget pollInterval : Int) : Nat :=
  timeoutBudget.toNat / pollInterval.toNat + 2

/-- The OTP polling loop as written in the specs (kotak-new.spec.js lines
249–255 and Kotak_statementDownload.spec.js lines 36–42), starting at
elapsed time `0`. -/
def retrieve (query : Int → Option String) (timeoutBudget pollInterval : Int) :
    Option PollResult :=
  loopFuel query timeoutBudget pollInterval (pollFuel timeoutBudget pollInterval) 0

/-- The loop's query as used by the specs: every poll calls
`fetchLatestOtp(startTime)` against the store's state at that instant. -/
def otpLoopQuery (env : Int → Except String (List OtpRecord)) (startTime : Int)
    (elapsed : Int) : Option String :=
  fetchLatestOtp (env elapsed) (some startTime)

-- Basic facts about `pickMax`.

theorem pickMax_cons_isSome (a : OtpRecord) (as : List OtpRecord) :
    (pickMax (a :: as)).isSome := by
  simp only [pickMax]
  cases pickMax as with
  | none => rfl
  | some b => by_cases hc : b.createdAt ≤ a.createdAt <;> simp [hc]

theorem pickMax_mem : ∀ {l : List OtpRecord} {r : OtpRecord}, pickMax l = some r → r ∈ l := by
  intro l
  induction l with
  | nil => intro r h; simp [pickMax] at h
  | cons a as ih =>
    intro r h
    simp only [pickMax] at h
    cases hm : pickMax as with
    | none => rw [hm] at h; simp at h; simp [h]
    | some b =>
      rw [hm] at h
      by_cases hc : b.createdAt ≤ a.createdAt
      · simp [hc] at h; simp [h]
      · simp [hc] at h
        subst h
        exact List.mem_cons_of_mem a (ih hm)

theorem pickMax_isMax : ∀ {l : List OtpRecord} {r : OtpRecord}, pickMax l = some r →
    ∀ x ∈ l, x.createdAt ≤ r.createdAt := by
  intro l
  induction l with
  | nil => intro r h; simp [pickMax] at h
  | cons a as ih =>
    intro r h x hx
    simp only [pickMax] at h
    cases hm : pickMax as with
    | none =>
      rw [hm] at h
      simp at h
      subst h
      rcases List.mem_cons.mp hx with hxa | hxas
      · simp [hxa]
      · cases as with
        | nil => simp at hxas
        | cons c cs =>
          have hs := pickMax_cons_isSome c cs
          rw [hm] at hs
          simp at hs
    | some b =>
      rw [hm] at h
      by_cases hc : b.createdAt ≤ a.createdAt
      · simp [hc] at h
        subst h
        rcases List.mem_cons.mp hx with hxa | hxas
        · simp [hxa]
        · exact le_trans (ih hm x hxas) hc
      · simp [hc] at h
        subst h
        rcases List.mem_cons.mp hx with hxa | hxas
        · subst hxa; exact le_of_not_le hc
        · exact ih hm x hxas

theorem pickMax_eq_none {l : List OtpRecord} (h : ∀ r ∈ l, False) : pickMax l = none := by
  cases l with
  | nil => rfl
  | cons a as => exact absurd (List.mem_cons_self a as) (fun hm => h a hm)

-- Basic facts about the polling loop.

/-- A poll that succeeds did so from the query at its elapsed time. -/
theorem loopFuel_success_query {query : Int → Option String} {tb p : Int} :
    ∀ {fuel : Nat} {elapsed : Int} {code : String} {e : Int},
    loopFuel query tb p fuel elapsed = some (.success code e) → query e = some code := by
  intro fuel
  induction fuel with
  | zero => intro elapsed code e h; simp [loopFuel] at h
  | succ n ih =>
    intro elapsed code e h
    simp only [loopFuel] at h
    by_cases hg : elapsed < tb
    · rw [if_pos hg] at h
      cases hq : query elapsed with
      | none => rw [hq] at h; exact ih h
      | some c =>
        rw [hq] at h
        simp at h
        obtain ⟨h1, h2⟩ := h
        subst h1
        subst h2
        exact hq
    · rw [if_neg hg] at h; simp at h

/-- With enough fuel the loop always yields a result (the JavaScript loop
always terminates: each null poll advances elapsed time by `pollInterval`
and the guard bounds it by `timeoutBudget`). -/
theorem loopFuel_total {query : Int → Option String} {tb p : Int} (hp : 0 < p) :
    ∀ (n : Nat) (elapsed : Int), tb - elapsed ≤ n * p →
    (loopFuel query tb p (n + 1) elapsed).isSome := by
  intro n
  induction n with
  | zero =>
    intro elapsed hle
    simp only [loopFuel]
    have hg : ¬ elapsed < tb := by omega
    rw [if_neg hg]
    rfl
  | succ m ih =>
    intro elapsed hle
    simp only [loopFuel]
    by_cases hg : elapsed < tb
    · rw [if_pos hg]
      cases hq : query elapsed with
      | some c => rfl
      | none =>
        apply ih
        push_cast at hle
        have hmp : ((m : Int) + 1) * p = (m : Int) * p + p := by ring
        linarith
    · rw [if_neg hg]; rfl

/-- The canonical fuel is enough. -/
theorem retrieve_isSome {query : Int → Option String} {tb p : Int} (hp : 0 < p) :
    (retrieve query tb p).isSome := by
  unfold retrieve pollFuel
  have h2 : tb.toNat / p.toNat + 2 = (tb.toNat / p.toNat + 1) + 1 := by omega
  rw [h2]
  apply loopFuel_total hp
  have hpn : 0 < p.toNat := by omega
  have hdiv : tb.toNat < (tb.toNat / p.toNat + 1) * p.toNat := by
    calc tb.toNat = p.toNat * (tb.toNat / p.toNat) + tb.toNat % p.toNat :=
          (Nat.div_add_mod tb.toNat p.toNat).symm
      _ < p.toNat * (tb.toNat / p.toNat) + p.toNat := by
          have := Nat.mod_lt tb.toNat hpn
          omega
      _ = (tb.toNat / p.toNat + 1) * p.toNat := by ring
  have hdivZ : ((tb.toNat : Int)) <
      ((tb.toNat / p.toNat + 1 : Nat) : Int) * ((p.toNat : Int)) := by
    exact_mod_cast hdiv
  have hpz : ((p.toNat : Int)) = p := by omega
  have htbz : tb ≤ ((tb.toNat : Int)) := by omega
  have hgoal : ((tb.toNat / p.toNat + 1 : Nat) : Int) * p
      = ((tb.toNat / p.toNat + 1 : Nat) : Int) * ((p.toNat : Int)) := by rw [hpz]
  rw [hgoal]
  linarith

/-- If every poll comes back null, the loop ends in the timeout throw, at an
elapsed time of at least the budget and less than budget plus one interval. -/
theorem loopFuel_allNone_timedOut {query : Int → Option String} {tb p : Int}
    (hq : ∀ e, query e = none) :
    ∀ (fuel : Nat) (elapsed : Int) (r : PollResult), elapsed < tb + p →
    loopFuel query tb p fuel elapsed = some r →
    ∃ e, r = .timedOut e ∧ tb ≤ e ∧ e < tb + p := by
  intro fuel
  induction fuel with
  | zero => intro elapsed r _ h; simp [loopFuel] at h
  | succ n ih =>
    intro elapsed r hlt h
    simp only [loopFuel] at h
    by_cases hg : elapsed < tb
    · rw [if_pos hg, hq elapsed] at h
      exact ih (elapsed + p) r (by omega) h
    · rw [if_neg hg] at h
      simp at h
      exact ⟨elapsed, h.symm, by omega, hlt⟩

/-- A query that answers on the very first poll makes the loop return that
code at elapsed time `0`, with no sleep. -/
theorem retrieve_first_poll {query : Int → Option String} {tb p : Int} {code : String}
    (htb : 0 < tb) (hq : query 0 = some code) :
    retrieve query tb p = some (.success code 0) := by
  unfold retrieve pollFuel
  have h2 : tb.toNat / p.toNat + 2 = (tb.toNat / p.toNat + 1) + 1 := by omega
  rw [h2]
  simp only [loopFuel]
  rw [if_pos htb, hq]

-- Alert Sink: utils/sendTelegram.js.

/-- The delivery channel's response to the `fetch` POST: `.error` models a
thrown network exception, `.ok` a received HTTP response with its `ok`
flag and body text. -/
structure HttpResponse where
  ok : Bool
  text : String
deriving DecidableEq, Repr

/-- The try block of `sendTelegramAlert`: perform the `fetch`; on a non-OK
response log the Telegram API error, else log success.  A thrown network
exception escapes the block (to be caught by the surrounding catch). -/
def telegramTryBlock (net : Except String HttpResponse) : Except String (List String) :=
  match net with
  | .error e => .error e
  | .ok res =>
    if res.ok then
      .ok ["📩 Telegram alert sent."]
    else
      .ok ["❌ Telegram API error: " ++ res.text]

/-- `sendTelegramAlert(message)` from utils/sendTelegram.js.  `token` and
`chatId` are the environment configuration (absent or empty is falsy);
`net` is the delivery channel's behavior.  The result is the list of
console logs produced; an `.error` result would model an exception
propagated to the caller. -/
def sendTelegramAlert (token chatId : Option String) (message : String)
    (net : Except String HttpResponse) : Except String (List String) :=
  if !(jsTruthyStr token) || !(jsTruthyStr chatId) then
    .ok ["❌ TELEGRAM_BOT_TOKEN or TELEGRAM_CHAT_ID is missing in environment variables"]
  else
    match telegramTryBlock net with
    | .ok logs => .ok logs
    | .error err => .ok ["❌ Telegram request failed: " ++ err]

-- Report Ingestor: parseAxisBankReport (axis report download spec).

/-- A spreadsheet row as produced by `xlsx.utils.sheet_to_json`: column
name to cell text, in column order (`Object.values` preserves it). -/
def SheetRow : Type := List (String × String)

/-- `row[k]`: the cell under column `k`, `undefined` when absent. -/
def cellOf (row : SheetRow) (k : String) : Option String :=
  List.lookup k row

/-- JavaScript `a || ''` over a possibly-absent cell value. -/
def cellOrEmpty (row : SheetRow) (k : String) : String :=
  match cellOf row k with
  | none => ""
  | some v => if v == "" then "" else v

/-- Character-list prefix test, used for substring containment. -/
def startsWithChars : List Char → List Char → Bool
  | _, [] => true
  | [], _ :: _ => false
  | c :: cs, d :: ds => c == d && startsWithChars cs ds

/-- Character-list substring containment. -/
def containsChars : List Char → List Char → Bool
  | [], pat => pat.isEmpty
  | c :: cs, pat => startsWithChars (c :: cs) pat || containsChars cs pat

/-- JavaScript `s.includes(pat)`. -/
def strIncludes (s pat : String) : Bool :=
  containsChars s.data pat.data

/-- ASCII lowercasing of one character (JavaScript `toLowerCase` on the
character range the reports use). -/
def charLower (c : Char) : Char :=
  if 'A' ≤ c && c ≤ 'Z' then Char.ofNat (c.toNat + 32) else c

/-- `s.toLowerCase()`. -/
def stringLower (s : String) : String :=
  String.mk (s.data.map charLower)

/-- JavaScript `array.join(' ')`. -/
def joinSpace : List String → String
  | [] => ""
  | [s] => s
  | s :: rest => s ++ " " ++ joinSpace rest

/-- `Object.values(row).join(' ').toLowerCase()`. -/
def rowAsText (row : SheetRow) : String :=
  stringLower (joinSpace (row.map Prod.snd))

/-- The configured sentinel phrases that cut off the trailing summary
sections of the exported report. -/
def stopMarkers : List String :=
  ["payment type summary", "payment method wise summary", "note: unless the constituent"]

/-- `stopMarkers.some(marker => rowAsText.includes(marker))`. -/
def hitsStopMarker (row : SheetRow) : Bool :=
  stopMarkers.any (fun marker => strIncludes (rowAsText row) marker)

/-- One normalized transaction record.  `Amount_cleaned` is the string
`row['Amount'].replace(/[^0-9.-]+/g, '')` that the source feeds to
`parseFloat`; the floating-point value itself is out of scope here. -/
structure AxisTxRecord where
  Serial_No : String
  Transaction_Date : String
  Beneficiary_Name : String
  Beneficiary_Account_Number : String
  Beneficiary_Bank : String
  Beneficiary_IFSC : String
  Amount_cleaned : String
  UTR : String
  CRN : String
  File_Name : String
  Status : String
  Payment_Mode : String
deriving DecidableEq, Repr

/-- `row['Amount'].replace(/[^0-9.-]+/g, '')`. -/
def cleanAmount (s : String) : String :=
  String.mk (s.data.filter (fun c => c.isDigit || c == '.' || c == '-'))

/-- The record pushed for one kept row (parseAxisBankReport lines 71–87;
the `fetchedAt: new Date()` wall-clock field is omitted). -/
def axisMapRow (row : SheetRow) : AxisTxRecord :=
  { Serial_No := cellOrEmpty row "S. No."
    Transaction_Date := cellOrEmpty row "Transaction Date"
    Beneficiary_Name := cellOrEmpty row "Beneficiary Name"
    Beneficiary_Account_Number := cellOrEmpty row "Beneficiary Account Number"
    Beneficiary_Bank := cellOrEmpty row "Beneficiary Bank"
    Beneficiary_IFSC := cellOrEmpty row "Beneficiary IFSC"
    Amount_cleaned := cleanAmount (cellOrEmpty row "Amount")
    UTR := cellOrEmpty row "UTR"
    CRN := cellOrEmpty row "CRN"
    File_Name := cellOrEmpty row "File Name"
    Status := cellOrEmpty row "Status"
    Payment_Mode := cellOrEmpty row "Payment Mode" }

/-- Whether a mandatory cell is falsy:
`!row['Transaction Date'] || !row['Beneficiary Name']` skips the row. -/
def axisRowSkipped (row : SheetRow) : Bool :=
  !(jsTruthyStr (cellOf row "Transaction Date")) ||
    !(jsTruthyStr (cellOf row "Beneficiary Name"))

/-- The row loop of `parseAxisBankReport`: break at the first stop-marker
row, skip rows missing mandatory cells, map the rest. -/
def parseAxisRows : List SheetRow → List AxisTxRecord
  | [] => []
  | row :: rest =>
    if hitsStopMarker row then []
    else if axisRowSkipped row then parseAxisRows rest
    else axisMapRow row :: parseAxisRows rest

-- Failure alerting: kotak-new.spec.js catch block and afterEach hook.

/-- Playwright's outcome classification for one test run. -/
inductive TestStatus where
  | passed | failed | testTimedOut | interrupted
deriving DecidableEq, Repr

/-- The alert text built in the main catch block (kotak-new.spec.js lines
410–412): sent once, then the error is rethrown to fail the test. -/
def kotakCatchAlert (step errMsg : String) : String :=
  "❌ *Test Failed*\n🔍 Step: " ++ step ++ "\n🧨 Error: " ++ errMsg

/-- How `${testInfo.status}` renders in the hook's fallback message. -/
def statusText : TestStatus → String
  | .passed => "passed"
  | .failed => "failed"
  | .testTimedOut => "timedOut"
  | .interrupted => "interrupted"

/-- The message assembled by the `test.afterEach` hook (lines 110–120). -/
def afterEachMessage (title : String) (status : TestStatus) (errMsg : Option String)
    (timeoutMs : Int) : String :=
  let base := "❗ *" ++ title ++ "*"
  match errMsg with
  | some m => base ++ "\n```" ++ m.replace "`" "" ++ "```"
  | none =>
    match status with
    | .testTimedOut => base ++ "\n```Test timed out after " ++ toString timeoutMs ++ "ms.```"
    | .interrupted => base ++ "\n```Test was interrupted```"
    | s => base ++ "\n```Unknown failure. Status: " ++ statusText s ++ "```"

/-- The `test.afterEach` hook (kotak-new.spec.js lines 105–124): one alert
when the run's status differs from the expected status, none otherwise. -/
def kotakAfterEachAlerts (title : String) (status expectedStatus : TestStatus)
    (errMsg : Option String) (timeoutMs : Int) : List String :=
  if status ≠ expectedStatus then
    [afterEachMessage title status errMsg timeoutMs]
  else
    []

/-- `testInfo.title` of the kotak-new test. -/
def kotakTitle : String := "🔁 Full Cycle: Admin Download -> Kotak Upload & Approve"

/-- The pre-throw alert of the upload-issue path (kotak-new.spec.js lines
306–307). -/
def uploadIssueAlert (fileName remarks : String) : String :=
  "⚠️ *Upload Issue Detected*\n📂 File: `" ++ fileName ++ "`\n📝 Remark: _" ++ remarks

/-- The message of the `throw new Error(…)` that follows the upload-issue
alert (line 308). -/
def approvalSkippedMsg : String := "⛔ Approval skipped due to upload issue."

/-- The Part 1 catch's alert (lines 209–212): sent, then the error is
rethrown — from outside the main try, so the main catch never sees it. -/
def dbCsvGenFailedAlert (errMsg : String) : String :=
  "❌ *DB/CSV Generation Failed*\n```" ++ errMsg ++ "```"

/-- The Part 3 inner catch's alert (lines 396–399): sent and swallowed
("Don't throw here"), so the run still passes. -/
def dbUpdateFailedAlert (errMsg : String) : String :=
  "❌ *DB Update Failed*\n```" ++ errMsg ++ "```"

/-- The alert-relevant execution paths of one run of the kotak-new test,
read off the source's alert sites and throw sites:
* `part1Failure`: the DB/CSV-generation catch (lines 209–212) alerts and
  rethrows before the main try, so the main catch does not fire but the
  afterEach hook does;
* `noProcessingPayouts`: the early `return` at lines 168–171 — the run
  passes with no alert;
* `stepThrow`: an action inside the main try throws at step `step` with
  no alert sent earlier in the body (e.g. the OTP A timeout, line 255);
* `uploadIssue`: lines 303–309 — the body alerts about the upload remark
  and then throws `approvalSkippedMsg` at step "Upload Status
  Verification", reaching the main catch and then the afterEach hook;
* `passedCleanly`: the body completes without throwing or alerting;
* `passedDbUpdateFailed`: lines 396–399 — the Part 3 DB update fails,
  its alert is sent, the error is swallowed and the run passes. -/
inductive KotakRunPath where
  | part1Failure (errMsg : String)
  | noProcessingPayouts
  | stepThrow (step errMsg : String)
  | uploadIssue (fileName remarks : String)
  | passedCleanly
  | passedDbUpdateFailed (errMsg : String)

/-- Whether the run ends with the test marked failed. -/
def kotakRunFailed : KotakRunPath → Bool
  | .part1Failure _ => true
  | .stepThrow _ _ => true
  | .uploadIssue _ _ => true
  | .noProcessingPayouts => false
  | .passedCleanly => false
  | .passedDbUpdateFailed _ => false

/-- Every Alert Sink invocation of one run, in order: the body's in-flow
alerts, the main catch's alert when the throw reaches it, and the
afterEach hook's alert when the final status differs from the expected
one. -/
def kotakRunAlerts : KotakRunPath → List String
  | .part1Failure errMsg =>
      dbCsvGenFailedAlert errMsg ::
        kotakAfterEachAlerts kotakTitle .failed .passed (some errMsg) 500000
  | .noProcessingPayouts => []
  | .stepThrow step errMsg =>
      kotakCatchAlert step errMsg ::
        kotakAfterEachAlerts kotakTitle .failed .passed (some errMsg) 500000
  | .uploadIssue fileName remarks =>
      uploadIssueAlert fileName remarks ::
        kotakCatchAlert "Upload Status Verification" approvalSkippedMsg ::
        kotakAfterEachAlerts kotakTitle .failed .passed (some approvalSkippedMsg) 500000
  | .passedCleanly => kotakAfterEachAlerts kotakTitle .passed .passed none 500000
  | .passedDbUpdateFailed errMsg =>
      dbUpdateFailedAlert errMsg ::
        kotakAfterEachAlerts kotakTitle .passed .passed none 500000

-- Inversion helpers shared by the claims about `fetchLatestOtp`.

/-- A returned code always comes from a store record that matched the
built query and whose `otp` field is the (non-empty) returned string. -/
theorem fetchLatestOtp_some_inv {outcome : Except String (List OtpRecord)}
    {a : Option Int} {code : String} (h : fetchLatestOtp outcome a = some code) :
    ∃ records, outcome = .ok records ∧
      ∃ r ∈ records, r.otp = some code ∧ code ≠ "" ∧ otpQuery a r = true := by
  rcases outcome with msg | records
  · simp [fetchLatestOtp] at h
  · refine ⟨records, rfl, ?_⟩
    have h : otpField (pickMax (records.filter (otpQuery a))) = some code := h
    cases hp : pickMax (records.filter (otpQuery a)) with
    | none => rw [hp] at h; simp [otpField] at h
    | some r =>
      rw [hp] at h
      have hmem := pickMax_mem hp
      have hmf := List.mem_filter.mp hmem
      rcases hro : r.otp with _ | s
      · simp [otpField, hro, jsTruthyStr] at h
      · by_cases hs : s = ""
        · simp [otpField, hro, hs, jsTruthyStr] at h
        · have htr : jsTruthyStr r.otp = true := by simp [hro, jsTruthyStr, hs]
          rw [otpField, if_pos htr, hro] at h
          have hsc : s = code := by injection h
          subst hsc
          exact ⟨r, hmf.1, hro, hs, hmf.2⟩

/-- With a truthy (nonzero) `afterTimestamp`, matching the query means
being strictly fresher. -/
theorem otpQuery_truthy {t : Int} {r : OtpRecord} (ht : t ≠ 0)
    (h : otpQuery (some t) r = true) : t < r.createdAt := by
  simp only [otpQuery] at h
  have hb : (t == 0) = false := by simp [ht]
  rw [hb] at h
  simpa using h

/-- C1 (amended: the reference timestamp must be truthy, i.e. nonzero —
`fetchLatestOtp(0)` drops the freshness filter, see the counterexample):
for every nonzero reference timestamp T and every store state, any code
returned by `fetchLatestOtp` — called directly or through the polling
loop — comes from a store record with `createdAt` strictly greater
than T. -/
theorem otp_retrieval_no_stale (T : Int) (hT : T ≠ 0) :
    (∀ (outcome : Except String (List OtpRecord)) (code : String),
      fetchLatestOtp outcome (some T) = some code →
      ∃ records, outcome = .ok records ∧
        ∃ r ∈ records, r.otp = some code ∧ T < r.createdAt)
    ∧ (∀ (env : Int → Except String (List OtpRecord)) (tb p : Int) (code : String) (e : Int),
      retrieve (otpLoopQuery env T) tb p = some (.success code e) →
      ∃ records, env e = .ok records ∧
        ∃ r ∈ records, r.otp = some code ∧ T < r.createdAt) := by
  constructor
  · intro outcome code h
    obtain ⟨records, hrec, r, hr, hro, _, hq⟩ := fetchLatestOtp_some_inv h
    exact ⟨records, hrec, r, hr, hro, otpQuery_truthy hT hq⟩
  · intro env tb p code e h
    have hq := loopFuel_success_query h
    obtain ⟨records, hrec, r, hr, hro, _, hqm⟩ := fetchLatestOtp_some_inv hq
    exact ⟨records, hrec, r, hr, hro, otpQuery_truthy hT hqm⟩

/-- C1 witness. -/
theorem otp_retrieval_no_stale_witness :
    ∃ records, (Except.ok [OtpRecord.mk (some "222222") 8] :
        Except String (List OtpRecord)) = .ok records ∧
      ∃ r ∈ records, r.otp = some "222222" ∧ (5 : Int) < r.createdAt :=
  (otp_retrieval_no_stale 5 (by decide)).1 (.ok [OtpRecord.mk (some "222222") 8]) "222222"
    (by decide)

/-- C1 counterexample: the claim as stated — over every reference
timestamp — fails at T = 0, where the `afterTimestamp ? … : {}` ternary
drops the freshness filter and a record with `createdAt ≤ T` is
returned. -/
theorem otp_retrieval_no_stale_cex :
    ¬ (∀ (T : Int) (records : List OtpRecord) (code : String),
      fetchLatestOtp (.ok records) (some T) = some code →
      ∃ r ∈ records, r.otp = some code ∧ T < r.createdAt) := by
  intro h
  obtain ⟨r, hr, _, hgt⟩ :=
    h 0 [OtpRecord.mk (some "111111") 0] "111111" (by decide)
  simp at hr
  rw [hr] at hgt
  simp at hgt

/-- With a truthy reference timestamp, a store holding no fresher record
makes every poll come back null (store errors included). -/
theorem otpLoopQuery_none_of_no_fresh {env : Int → Except String (List OtpRecord)}
    {T : Int} (hT : T ≠ 0)
    (hno : ∀ e records, env e = .ok records → ∀ r ∈ records, r.createdAt ≤ T) :
    ∀ e, otpLoopQuery env T e = none := by
  intro e
  unfold otpLoopQuery
  cases henv : env e with
  | error msg => rfl
  | ok records =>
    have hfil : records.filter (otpQuery (some T)) = [] := by
      rw [List.filter_eq_nil_iff]
      intro r hr
      have hle := hno e records henv r hr
      simp only [otpQuery]
      have hb : (T == 0) = false := by simp [hT]
      rw [hb]
      simp
      omega
    show otpField (pickMax (records.filter (otpQuery (some T)))) = none
    rw [hfil]
    rfl

/-- C2 (amended: the reference timestamp must be truthy, i.e. nonzero —
at T = 0 the freshness filter is dropped and a stale code can be returned
instead, see the counterexample): for every nonzero reference timestamp,
if no record with `createdAt > T` ever appears in the store, the polling
loop terminates with the timeout throw at an elapsed time of at least the
budget and less than budget plus one poll interval (for the source's
60s/3s loop: exactly within [60s, 63s)); it never hangs. -/
theorem otp_retrieval_timeout (env : Int → Except String (List OtpRecord))
    (T tb p : Int) (hp : 0 < p) (htb : 0 ≤ tb) (hT : T ≠ 0)
    (hno : ∀ e records, env e = .ok records → ∀ r ∈ records, r.createdAt ≤ T) :
    ∃ e, retrieve (otpLoopQuery env T) tb p = some (.timedOut e) ∧
      tb ≤ e ∧ e < tb + p := by
  have hqn := otpLoopQuery_none_of_no_fresh hT hno
  have hsome := @retrieve_isSome (otpLoopQuery env T) tb p hp
  cases hres : retrieve (otpLoopQuery env T) tb p with
  | none => rw [hres] at hsome; simp at hsome
  | some r =>
    have hlt : (0 : Int) < tb + p := by omega
    obtain ⟨e, hre, h1, h2⟩ :=
      loopFuel_allNone_timedOut hqn (pollFuel tb p) 0 r hlt hres
    exact ⟨e, by rw [hre], h1, h2⟩

/-- C2 witness. -/
theorem otp_retrieval_timeout_witness :
    ∃ e, retrieve (otpLoopQuery (fun _ => .ok []) 5) 60000 3000 = some (.timedOut e) ∧
      (60000 : Int) ≤ e ∧ e < 60000 + 3000 :=
  otp_retrieval_timeout (fun _ => .ok []) 5 60000 3000 (by decide) (by decide) (by decide)
    (by intro e records henv r hr; injection henv with h; rw [← h] at hr; simp at hr)

/-- C2 counterexample: at reference timestamp 0 (a falsy value), a store
that never holds any record with `createdAt > 0` still makes the loop
return a (stale) code on the first poll instead of the timeout signal. -/
theorem otp_retrieval_timeout_cex :
    ¬ (∀ (env : Int → Except String (List OtpRecord)) (T : Int),
      (∀ e records, env e = .ok records → ∀ r ∈ records, r.createdAt ≤ T) →
      ∃ e, retrieve (otpLoopQuery env T) 60000 3000 = some (.timedOut e)) := by
  intro h
  obtain ⟨e, he⟩ := h (fun _ => .ok [OtpRecord.mk (some "111111") 0]) 0
    (by intro e records henv r hr; injection henv with h'; rw [← h'] at hr; simp at hr; rw [hr])
  rw [show retrieve (otpLoopQuery (fun _ => .ok [OtpRecord.mk (some "111111") 0]) 0) 60000 3000
      = some (.success "111111" 0) from by decide] at he
  simp at he

/-- C3 (amended: the single most-recently-created record matching the
query must itself carry a truthy — present, non-empty — `otp` field; the
limit-1 query inspects only that record, so a fresher code-less record
shadows older coded ones, see the counterexample): then the polling loop
returns that code on the very first poll, at elapsed time 0, without
sleeping any poll interval or waiting out the budget. -/
theorem otp_retrieval_first_poll (env : Int → Except String (List OtpRecord))
    (records : List OtpRecord) (T tb p : Int) (r : OtpRecord) (code : String)
    (htb : 0 < tb) (henv : env 0 = .ok records)
    (hpick : pickMax (records.filter (otpQuery (some T))) = some r)
    (hotp : r.otp = some code) (hcode : code ≠ "") :
    retrieve (otpLoopQuery env T) tb p = some (.success code 0) := by
  apply retrieve_first_poll htb
  show fetchLatestOtp (env 0) (some T) = some code
  rw [henv]
  show otpField (pickMax (records.filter (otpQuery (some T)))) = some code
  rw [hpick, otpField, hotp]
  simp [jsTruthyStr, hcode]

/-- C3 witness. -/
theorem otp_retrieval_first_poll_witness :
    retrieve (otpLoopQuery (fun _ => .ok [OtpRecord.mk (some "222222") 8]) 5) 60000 3000
      = some (.success "222222" 0) :=
  otp_retrieval_first_poll (fun _ => .ok [OtpRecord.mk (some "222222") 8])
    [OtpRecord.mk (some "222222") 8] 5 60000 3000 (OtpRecord.mk (some "222222") 8) "222222"
    (by decide) rfl (by decide) rfl (by decide)

/-- C3 counterexample: a qualifying record with a perfectly good code sits
in the store at call time, but an even fresher record without an `otp`
field shadows it in the descending-`createdAt` limit-1 query, so the
first poll returns null and the loop runs to its timeout instead of
returning on the first poll. -/
theorem otp_retrieval_first_poll_cex :
    ¬ (∀ (env : Int → Except String (List OtpRecord)) (records : List OtpRecord)
      (T : Int) (r : OtpRecord),
      env 0 = .ok records → r ∈ records → T < r.createdAt →
      ∃ code, retrieve (otpLoopQuery env T) 60000 3000 = some (.success code 0)) := by
  intro h
  obtain ⟨code, hc⟩ := h
    (fun _ => .ok [OtpRecord.mk (some "123456") 7, OtpRecord.mk none 8])
    [OtpRecord.mk (some "123456") 7, OtpRecord.mk none 8]
    5 (OtpRecord.mk (some "123456") 7) rfl (by decide) (by decide)
  rw [show retrieve (otpLoopQuery
      (fun _ => .ok [OtpRecord.mk (some "123456") 7, OtpRecord.mk none 8]) 5) 60000 3000
      = some (.timedOut 60000) from by decide] at hc
  simp at hc

/-- C4: a store query failure during a poll cycle is indistinguishable
from a cycle that finds no qualifying record: `fetchLatestOtp` swallows
the error into null, and the whole polling loop computes the same result
over an environment that errors on some cycles as over one that returns
an empty store there — it neither throws nor stops early on a transient
error. -/
theorem query_failure_like_not_found (env envE : Int → Except String (List OtpRecord))
    (T tb p : Int)
    (hrel : ∀ e, env e = envE e ∨
      ((∃ msg, envE e = .error msg) ∧ env e = .ok [])) :
    (∀ (msg : String) (a : Option Int), fetchLatestOtp (.error msg) a = none)
    ∧ retrieve (otpLoopQuery envE T) tb p = retrieve (otpLoopQuery env T) tb p := by
  constructor
  · intro msg a; rfl
  · have hq : otpLoopQuery envE T = otpLoopQuery env T := by
      funext e
      rcases hrel e with h | ⟨⟨msg, hE⟩, hOk⟩
      · unfold otpLoopQuery; rw [h]
      · unfold otpLoopQuery
        rw [hE, hOk]
        rfl
    rw [hq]

/-- C4 witness. -/
theorem query_failure_like_not_found_witness :
    (∀ (msg : String) (a : Option Int), fetchLatestOtp (.error msg) a = none)
    ∧ retrieve (otpLoopQuery (fun _ => .error "ECONNREFUSED") 5) 60000 3000
      = retrieve (otpLoopQuery (fun _ => .ok []) 5) 60000 3000 :=
  query_failure_like_not_found (fun _ => .ok []) (fun _ => .error "ECONNREFUSED") 5 60000 3000
    (fun _ => Or.inr ⟨⟨"ECONNREFUSED", rfl⟩, rfl⟩)

/-- C5: with the store holding exactly a record 10s older than the
reference timestamp (code "111111") and one 2s fresher (code "222222"),
the 60s/3s polling retrieval returns "222222" — the single
most-recently-created qualifying record of the descending-`createdAt`
limit-1 query — on the first poll.  This holds for every reference
timestamp T (for T = 0 the filter is dropped, but the fresher record
still wins the descending sort). -/
theorem retrieve_concrete_scenario (T : Int) :
    retrieve (otpLoopQuery
      (fun _ => .ok [OtpRecord.mk (some "111111") (T - 10000),
        OtpRecord.mk (some "222222") (T + 2000)]) T) 60000 3000
      = some (.success "222222" 0) := by
  by_cases hT : T = 0
  · subst hT; decide
  · apply retrieve_first_poll (by norm_num)
    show fetchLatestOtp
      (.ok [OtpRecord.mk (some "111111") (T - 10000), OtpRecord.mk (some "222222") (T + 2000)])
      (some T) = some "222222"
    have hb : (T == 0) = false := by simp [hT]
    have h1 : otpQuery (some T) (OtpRecord.mk (some "111111") (T - 10000)) = false := by
      simp only [otpQuery, hb]
      simp
    have h2 : otpQuery (some T) (OtpRecord.mk (some "222222") (T + 2000)) = true := by
      simp only [otpQuery, hb]
      simp
    show otpField (pickMax (List.filter (otpQuery (some T))
      [OtpRecord.mk (some "111111") (T - 10000), OtpRecord.mk (some "222222") (T + 2000)]))
      = some "222222"
    rw [List.filter_cons, List.filter_cons, List.filter_nil, h1, h2]
    simp [pickMax, otpField, jsTruthyStr]

/-- C6 (amended: every failed attempt invokes the Alert Sink at least
twice — the alert of the catch that observes the throw plus the
`test.afterEach` hook's alert — never exactly once; a step failure or a
Part 1 DB/CSV failure yields exactly two alerts, and the upload-issue
failure yields three, since its own alert precedes the throw; moreover a
passing run is not always alert-free: a swallowed Part 3 DB-update
failure sends exactly one alert on a run that still passes). -/
theorem kotak_failure_alert_count :
    (∀ path, kotakRunFailed path = true → 2 ≤ (kotakRunAlerts path).length)
    ∧ (∀ step errMsg, (kotakRunAlerts (.stepThrow step errMsg)).length = 2)
    ∧ (∀ errMsg, (kotakRunAlerts (.part1Failure errMsg)).length = 2)
    ∧ (∀ fileName remarks, (kotakRunAlerts (.uploadIssue fileName remarks)).length = 3)
    ∧ (kotakRunAlerts .passedCleanly).length = 0
    ∧ (∀ errMsg, (kotakRunAlerts (.passedDbUpdateFailed errMsg)).length = 1) := by
  refine ⟨?_, ?_, ?_, ?_, ?_, ?_⟩
  · intro path hfail
    cases path <;> simp_all [kotakRunFailed, kotakRunAlerts, kotakAfterEachAlerts]
  · intro step errMsg; simp [kotakRunAlerts, kotakAfterEachAlerts]
  · intro errMsg; simp [kotakRunAlerts, kotakAfterEachAlerts]
  · intro fileName remarks; simp [kotakRunAlerts, kotakAfterEachAlerts]
  · simp [kotakRunAlerts, kotakAfterEachAlerts]
  · intro errMsg; simp [kotakRunAlerts, kotakAfterEachAlerts]

/-- C6 witness. -/
theorem kotak_failure_alert_count_witness :
    2 ≤ (kotakRunAlerts (.uploadIssue "01_01_2025.csv" "Rejected Records")).length :=
  kotak_failure_alert_count.1 (.uploadIssue "01_01_2025.csv" "Rejected Records") (by decide)

/-- C6 counterexample: the failed OTP A attempt does not invoke the Alert
Sink exactly once — the catch block and the afterEach hook each send one
alert. -/
theorem kotak_failure_alert_count_cex :
    kotakRunFailed (.stepThrow "OTP A" "❌ OTP A timeout") = true
    ∧ (kotakRunAlerts (.stepThrow "OTP A" "❌ OTP A timeout")).length ≠ 1 := by
  constructor
  · rfl
  · simp [kotakRunAlerts, kotakAfterEachAlerts]

/-- C7: `sendTelegramAlert` never propagates an error to its caller, for
any message, any configuration and any behavior of the delivery channel:
missing configuration, a non-OK HTTP response and a thrown network
exception each end in exactly one local console log and a normal
return. -/
theorem sendTelegramAlert_never_throws (token chatId : Option String)
    (message : String) (net : Except String HttpResponse) :
    ∃ log, sendTelegramAlert token chatId message net = .ok [log] := by
  unfold sendTelegramAlert
  split
  · exact ⟨_, rfl⟩
  · rcases net with e | res
    · exact ⟨_, rfl⟩
    · by_cases h : res.ok
      · exact ⟨"📩 Telegram alert sent.", by simp [telegramTryBlock, h]⟩
      · exact ⟨"❌ Telegram API error: " ++ res.text, by simp [telegramTryBlock, h]⟩

/-- A marker-free row that carries both mandatory cells contributes its
mapped record to the parse of any row list containing it, as long as no
row of the list hits a stop marker. -/
theorem parseAxisRows_mem : ∀ {l : List SheetRow} {row : SheetRow},
    (∀ r ∈ l, hitsStopMarker r = false) → row ∈ l → axisRowSkipped row = false →
    axisMapRow row ∈ parseAxisRows l := by
  intro l
  induction l with
  | nil => intro row _ hmem; simp at hmem
  | cons a as ih =>
    intro row hnm hmem hsk
    have ha : hitsStopMarker a = false := hnm a (List.mem_cons_self a as)
    have has : ∀ r ∈ as, hitsStopMarker r = false :=
      fun r hr => hnm r (List.mem_cons_of_mem a hr)
    rcases List.mem_cons.mp hmem with hra | hras
    · subst hra
      simp only [parseAxisRows, ha, Bool.false_eq_true, if_false, hsk]
      simp
    · simp only [parseAxisRows, ha, Bool.false_eq_true, if_false]
      by_cases hska : axisRowSkipped a = true
      · simp only [hska, if_true]
        exact ih has hras hsk
      · simp only [hska, if_false]
        exact List.mem_cons_of_mem _ (ih has hras hsk)

/-- C8: the report parser stops at the first row whose concatenated,
lowercased cell text contains a configured stop-marker phrase — that row
and everything after it contribute nothing — while marker-free rows
before it that carry the two mandatory cells are still produced, with a
missing optional column (e.g. UTR) defaulting to the empty string. -/
theorem parseAxis_stops_at_marker (pre post : List SheetRow) (m : SheetRow)
    (hm : hitsStopMarker m = true)
    (hpre : ∀ r ∈ pre, hitsStopMarker r = false) :
    parseAxisRows (pre ++ m :: post) = parseAxisRows pre
    ∧ (∀ row ∈ pre, axisRowSkipped row = false →
        axisMapRow row ∈ parseAxisRows (pre ++ m :: post))
    ∧ (∀ row : SheetRow, cellOf row "UTR" = none → (axisMapRow row).UTR = "") := by
  have heq : parseAxisRows (pre ++ m :: post) = parseAxisRows pre := by
    induction pre with
    | nil => simp [parseAxisRows, hm]
    | cons a as ih =>
      have ha : hitsStopMarker a = false := hpre a (List.mem_cons_self a as)
      have has : ∀ r ∈ as, hitsStopMarker r = false :=
        fun r hr => hpre r (List.mem_cons_of_mem a hr)
      have ih' := ih has
      simp only [List.cons_append, List.append_eq, parseAxisRows, ha, Bool.false_eq_true,
        if_false]
      rw [ih']
  refine ⟨heq, ?_, ?_⟩
  · intro row hmem hsk
    rw [heq]
    exact parseAxisRows_mem hpre hmem hsk
  · intro row hutr
    simp [axisMapRow, cellOrEmpty, hutr]

/-- C8 witness. -/
theorem parseAxis_stops_at_marker_witness :
    parseAxisRows ([[("Transaction Date", "01/01/2025"), ("Beneficiary Name", "ACME")]]
        ++ [("Col1", "Payment Type Summary")] :: [[("Transaction Date", "02/01/2025"),
        ("Beneficiary Name", "OTHER")]])
      = parseAxisRows [[("Transaction Date", "01/01/2025"), ("Beneficiary Name", "ACME")]]
    ∧ (∀ row ∈ [[("Transaction Date", "01/01/2025"), ("Beneficiary Name", "ACME")]],
        axisRowSkipped row = false →
        axisMapRow row ∈ parseAxisRows ([[("Transaction Date", "01/01/2025"),
          ("Beneficiary Name", "ACME")]] ++ [("Col1", "Payment Type Summary")]
          :: [[("Transaction Date", "02/01/2025"), ("Beneficiary Name", "OTHER")]]))
    ∧ (∀ row : SheetRow, cellOf row "UTR" = none → (axisMapRow row).UTR = "") :=
  parseAxis_stops_at_marker
    [[("Transaction Date", "01/01/2025"), ("Beneficiary Name", "ACME")]]
    [[("Transaction Date", "02/01/2025"), ("Beneficiary Name", "OTHER")]]
    [("Col1", "Payment Type Summary")] (by decide) (by decide)

/-- C9: a falsy `afterTimestamp` — omitted/`null` (`none`) or the numeric
timestamp 0 — makes the `afterTimestamp ? … : {}` ternary drop the
`createdAt` filter entirely, so `fetchLatestOtp` returns the most
recently created OTP of the whole store regardless of its age; the
no-stale-code guarantee holds only under the precondition that
`afterTimestamp` is truthy (nonzero), in which case every returned code
belongs to a record with `createdAt > afterTimestamp`. -/
theorem fetchLatestOtp_falsy_unfiltered (records : List OtpRecord) (t : Int) :
    fetchLatestOtp (.ok records) none = otpField (pickMax records)
    ∧ fetchLatestOtp (.ok records) (some 0) = otpField (pickMax records)
    ∧ (∀ code, t ≠ 0 → fetchLatestOtp (.ok records) (some t) = some code →
        ∃ r ∈ records, r.otp = some code ∧ t < r.createdAt) := by
  refine ⟨?_, ?_, ?_⟩
  · show otpField (pickMax (records.filter (otpQuery none))) = otpField (pickMax records)
    have : records.filter (otpQuery none) = records :=
      List.filter_eq_self.mpr fun r _ => rfl
    rw [this]
  · show otpField (pickMax (records.filter (otpQuery (some 0)))) = otpField (pickMax records)
    have : records.filter (otpQuery (some 0)) = records :=
      List.filter_eq_self.mpr fun r _ => rfl
    rw [this]
  · intro code ht h
    obtain ⟨records', hrec, r, hr, hro, _, hq⟩ := fetchLatestOtp_some_inv h
    have : records' = records := by injection hrec with h'; exact h'.symm
    subst this
    exact ⟨r, hr, hro, otpQuery_truthy ht hq⟩

/-- C9 witness: a truthy reference timestamp really does force freshness
at a concrete input. -/
theorem fetchLatestOtp_falsy_unfiltered_witness :
    ∃ r ∈ [OtpRecord.mk (some "123456") 10], r.otp = some "123456" ∧ (7 : Int) < r.createdAt :=
  (fetchLatestOtp_falsy_unfiltered [OtpRecord.mk (some "123456") 10] 7).2.2 "123456"
    (by decide) (by decide)

/-- C10: `fetchLatestOtp` is total — every store outcome (errors included)
produces either null or a non-empty code string, never an exception — and
when the single most-recently-created matching record's `otp` field is
missing, null or the empty string, the `otp?.otp || null` coercion makes
the result null, indistinguishable from "no qualifying record found". -/
theorem fetchLatestOtp_total_falsy_null (outcome : Except String (List OtpRecord))
    (a : Option Int) :
    (fetchLatestOtp outcome a = none ∨
      ∃ s, fetchLatestOtp outcome a = some s ∧ s ≠ "")
    ∧ (∀ msg, fetchLatestOtp (.error msg) a = none)
    ∧ (∀ records r, outcome = .ok records →
        pickMax (records.filter (otpQuery a)) = some r →
        jsTruthyStr r.otp = false → fetchLatestOtp outcome a = none) := by
  refine ⟨?_, fun msg => rfl, ?_⟩
  · cases hres : fetchLatestOtp outcome a with
    | none => exact Or.inl rfl
    | some s =>
      obtain ⟨records, hrec, r, hr, hro, hs, hq⟩ := fetchLatestOtp_some_inv hres
      exact Or.inr ⟨s, rfl, hs⟩
  · intro records r hout hpick hfalsy
    subst hout
    show otpField (pickMax (records.filter (otpQuery a))) = none
    rw [hpick, otpField, if_neg]
    simp [hfalsy]

/-- C10 witness: a qualifying record whose `otp` field is the empty string
yields null at a concrete input. -/
theorem fetchLatestOtp_total_falsy_null_witness :
    fetchLatestOtp (.ok [OtpRecord.mk (some "") 10]) (some 5) = none :=
  (fetchLatestOtp_total_falsy_null (.ok [OtpRecord.mk (some "") 10]) (some 5)).2.2
    [OtpRecord.mk (some "") 10] (OtpRecord.mk (some "") 10) rfl (by decide) (by decide)
